import Mathlib

/-!
Shallow embedding of `internal/database/sqlite.go` from the `customers`
repository, together with proofs of the specification's claims about it.

Go's side effects (opening the database, pinging, running migrations,
logging, removing directories) are modelled by threading explicit outcome
environments and by recording the actions a call performs in a trace.
Machine state that Go keeps globally (the `sync.Once` version-log gate) is
threaded explicitly as a boolean.
-/

/-- Substring containment on character lists, the semantics of Go's
`strings.Contains`: `needle` occurs contiguously inside the haystack. -/
def containsSeq (needle : List Char) : List Char → Bool
  | [] => needle.isEmpty
  | c :: t => needle.isPrefixOf (c :: t) || containsSeq needle t

/-- Go's `strings.Contains s sub`. -/
def goContains (s sub : String) : Bool :=
  containsSeq sub.toList s.toList

/-- `getSqlitePath` from sqlite.go. The value of the environment variable
`SQLITE_DB_PATH` is passed in as the argument `envPath` (Go reads it with
`os.Getenv`); the rest is the source's pure logic: default to
`customers.db` when the value is empty or contains `..`. -/
def getSqlitePath (envPath : String) : String :=
  if envPath = "" || goContains envPath ".." then "customers.db" else envPath

/-- A non-nil Go `error` value as seen by `SqliteUniqueViolation`: either an
arbitrary error exposing only its message, or a `sqlite3.Error` with its
`Code`, `ExtendedCode` and message. -/
inductive GoError where
  | basic (msg : String)
  | sqlite3Err (code : Int) (extendedCode : Int) (msg : String)
deriving DecidableEq

/-- The string returned by the error's `Error()` method. -/
def GoError.message : GoError → String
  | .basic m => m
  | .sqlite3Err _ _ m => m

/-- `sqlite3.ErrConstraint`, the SQLite primary result code for constraint
violations (numeric value 19). -/
def errConstraint : Int := 19

/-- `SqliteUniqueViolation` from sqlite.go, on a non-nil error: substring
match on the message, and additionally the `Code` comparison when the
dynamic type is `sqlite3.Error`. -/
def SqliteUniqueViolation (err : GoError) : Bool :=
  let mtch := goContains err.message "UNIQUE constraint failed"
  match err with
  | .sqlite3Err code _ _ => mtch || code == errConstraint
  | .basic _ => mtch

/-- Calling `SqliteUniqueViolation` on an arbitrary Go `error` interface
value, `none` standing for the nil interface value. The source's first
statement calls `err.Error()`; on a nil interface value that dereference
panics, modelled as result `none`. A returned value is `some b`. -/
def sqliteUniqueViolationCall : Option GoError → Option Bool
  | none => none
  | some e => some (SqliteUniqueViolation e)

/-- One named schema-change unit handed to the migration engine. -/
structure MigrationStep where
  name : String
  statement : String
deriving DecidableEq

/-- `execsql` as used in sqlite.go: packs a name and a SQL statement into a
migration step. -/
def execsql (name statement : String) : MigrationStep :=
  { name := name, statement := statement }

/-- The ordered steps of `sqliteMigrator` from sqlite.go, names and SQL
texts verbatim. -/
def sqliteMigratorSteps : List MigrationStep :=
  [ execsql "create_customers"
      "create table if not exists customers(customer_id primary key, first_name, middle_name, last_name, nick_name, suffix, birth_date datetime, status, email, created_at datetime, last_modified datetime, deleted_at datetime);",
    execsql "create_customers_phones"
      "create table if not exists customers_phones(customer_id, number, valid, type, unique (customer_id, number) on conflict abort);",
    execsql "create_customers_addresses"
      "create table if not exists customers_addresses(address_id primary key, customer_id, type, address1, address2, city, state, postal_code, country, validated, active, unique (customer_id, address1) on conflict abort);",
    execsql "create_customer_metadata"
      "create table if not exists customer_metadata(customer_id, meta_key, meta_value, unique(meta_key, meta_value));",
    execsql "customer_status_updates"
      "create table if not exists customer_status_updates(customer_id, future_status, comment, changed_at datetime);",
    execsql "create_customer_ofac_searches"
      "create table if not exists customer_ofac_searches(customer_id, entity_id, sdn_name, sdn_type, match, created_at datetime);",
    execsql "create_customer_ssn"
      "create table if not exists customer_ssn(customer_id primary key, ssn, ssn_masked, created_at datetime);",
    execsql "create_documents"
      "create table if not exists documents(document_id primary key, customer_id, type, content_type, uploaded_at datetime);",
    execsql "create_disclaimers"
      "create table if not exists disclaimers(disclaimer_id primary key, text, document_id, created_at datetime, deleted_at datetime);",
    execsql "create_disclaimer_acceptances"
      "create table if not exists disclaimer_acceptances(disclaimer_id, customer_id, accepted_at datetime, unique(disclaimer_id, customer_id) on conflict ignore);",
    execsql "create_outbound_emails"
      "create table if not exists outbound_emails(email_id, customer_id, to_address, body, created_at datetime, sent_at datetime, deleted_at datetime);",
    execsql "create_email_activation_codes"
      "create table if not exists email_activation_codes(email_id, hash, created_at datetime, clicked_at datetime, deleted_at datetime);" ]

/-- Database state as the migration engine sees it: the migration ledger
(the list of step names already recorded, in order of application) and the
rest of the database, abstracted as a list of schema objects that SQL
statements act on. -/
structure MigState where
  ledger : List String
  schema : List String
deriving DecidableEq

/-- Modelled from the spec: one step of the third-party migration engine
(`lopezator/migrator`, not under src/), following spec section 4.2: if the
step's name is already recorded in the ledger it is skipped unconditionally;
otherwise its statement is executed (by the given statement executor `ex`,
which acts on the schema and may fail) and on success the name is recorded;
on failure the engine aborts with the underlying error and the step is not
marked applied. -/
def migrateStep (ex : String → List String → Except String (List String))
    (st : MigState) (step : MigrationStep) : Except String MigState :=
  if st.ledger.contains step.name then
    Except.ok st
  else
    match ex step.statement st.schema with
    | Except.error e => Except.error e
    | Except.ok schema2 =>
        Except.ok { ledger := st.ledger ++ [step.name], schema := schema2 }

/-- Modelled from the spec: `Migrate` of the third-party migration engine
(not under src/), spec section 4.2: apply the registered steps in
registration order, stopping at the first failure. -/
def migrate (ex : String → List String → Except String (List String)) :
    List MigrationStep → MigState → Except String MigState
  | [], st => Except.ok st
  | step :: rest, st =>
      match migrateStep ex st step with
      | Except.error e => Except.error e
      | Except.ok st2 => migrate ex rest st2

/-- A connection handle (`*sql.DB`), identified by a number. -/
abbrev DBHandle := Nat

/-- A `log.Logger`, identified by a name. -/
structure Logger where
  name : String
deriving DecidableEq

/-- The process-wide gauge `sqliteConnections`, identified by its metric
name. -/
def sqliteConnections : String := "sqlite_connections"

/-- The `sqlite` struct from sqlite.go. -/
structure sqlite where
  path : String
  connections : String
  logger : Logger
  err : Option String
deriving DecidableEq

/-- The observable actions a `Connect` call can perform, in order. -/
inductive ConnectAction where
  | versionOnceBody
  | logVersion (v : String)
  | openDB (path : String)
  | ping
  | runMigrations
  | startMetrics
deriving DecidableEq

/-- Outcomes of the side-effecting operations `Connect` may attempt:
the engine version string reported by `sqlite3.Version()` (the empty string
models a failed read), the result of `sql.Open`, and the error results of
`db.Ping()` and `sqliteMigrator.Migrate(db)` on a given handle. -/
structure ConnectEnv where
  version : String
  openRes : Except String DBHandle
  pingRes : DBHandle → Option String
  migrateRes : DBHandle → Option String

/-- The observable result of one `Connect` call: the returned handle and
error, plus the trace of actions performed. -/
structure ConnectOutcome where
  db : Option DBHandle
  err : Option String
  actions : List ConnectAction
deriving DecidableEq

/-- The actions of the `sqliteVersionLogOnce.Do` call in `Connect`: when
the gate has not yet fired, its body runs (and logs the version exactly
when `sqlite3.Version()` reported a non-empty string); afterwards the gate
is fired and later calls do nothing. -/
def onceActions (version : String) (onceFired : Bool) : List ConnectAction :=
  if onceFired then []
  else if version = "" then [ConnectAction.versionOnceBody]
  else [ConnectAction.versionOnceBody, ConnectAction.logVersion version]

/-- The body of `Connect` after the stored-error check, from sqlite.go:
fire the `sync.Once` version log if not yet fired (logging only when the
version string is non-empty), then open, ping, migrate, and only after all
succeed start the metrics goroutine. Returns the outcome and the new state
of the once-gate (always fired after this body runs). -/
def connectChecked (s : sqlite) (env : ConnectEnv) (onceFired : Bool) :
    ConnectOutcome × Bool :=
  let onceActs : List ConnectAction := onceActions env.version onceFired
  match env.openRes with
  | Except.error e =>
      ({ db := none, err := some e,
         actions := onceActs ++ [ConnectAction.openDB s.path] }, true)
  | Except.ok db =>
      match env.pingRes db with
      | some e =>
          ({ db := some db, err := some e,
             actions := onceActs ++ [ConnectAction.openDB s.path, ConnectAction.ping] }, true)
      | none =>
          match env.migrateRes db with
          | some e =>
              ({ db := some db, err := some e,
                 actions := onceActs ++ [ConnectAction.openDB s.path, ConnectAction.ping,
                   ConnectAction.runMigrations] }, true)
          | none =>
              ({ db := some db, err := none,
                 actions := onceActs ++ [ConnectAction.openDB s.path, ConnectAction.ping,
                   ConnectAction.runMigrations, ConnectAction.startMetrics] }, true)

/-- `(*sqlite).Connect` from sqlite.go: a stored construction-time error is
returned immediately, wrapped with the prefix `sqlite had error `, before
any other action; otherwise the main body runs. -/
def connect (s : sqlite) (env : ConnectEnv) (onceFired : Bool) :
    ConnectOutcome × Bool :=
  match s.err with
  | some e =>
      ({ db := none, err := some ("sqlite had error " ++ e), actions := [] }, onceFired)
  | none => connectChecked s env onceFired

/-- `sqliteConnection` from sqlite.go: the struct literal sets `path`,
`logger` and `connections`; the `err` field is left at its zero value,
nil. -/
def sqliteConnection (logger : Logger) (path : String) : sqlite :=
  { path := path, connections := sqliteConnections, logger := logger, err := none }

/-- A `sql.DBStats` snapshot: idle, in-use and open connection counts. -/
structure DBStats where
  idle : Nat
  inUse : Nat
  openConnections : Nat
deriving DecidableEq

/-- One gauge update: which gauge, the label pair, and the value set. -/
structure GaugeSet where
  gauge : String
  labelName : String
  labelValue : String
  value : Nat
deriving DecidableEq

/-- The body of one tick of the metrics goroutine in `Connect`: set the
connections gauge for states idle, inuse and open from a pool statistics
snapshot. -/
def metricsTick (s : sqlite) (stats : DBStats) : List GaugeSet :=
  [ { gauge := s.connections, labelName := "state", labelValue := "idle",
      value := stats.idle },
    { gauge := s.connections, labelName := "state", labelValue := "inuse",
      value := stats.inUse },
    { gauge := s.connections, labelName := "state", labelValue := "open",
      value := stats.openConnections } ]

/-- The metrics goroutine's ticker interval, in seconds (`1 * time.Minute`
in sqlite.go). -/
def metricsIntervalSeconds : Nat := 60

/-- A sequence of `Connect` calls in one process, threading the
process-wide once-gate state through the calls. -/
def processCalls : List (sqlite × ConnectEnv) → Bool → List ConnectOutcome × Bool
  | [], b => ([], b)
  | (s, env) :: rest, b =>
      let r := connect s env b
      let rs := processCalls rest r.2
      (r.1 :: rs.1, rs.2)

/-- How many times the guarded version-log body appears in a trace. -/
def countOnceActs : List ConnectAction → Nat
  | [] => 0
  | ConnectAction.versionOnceBody :: t => countOnceActs t + 1
  | _ :: t => countOnceActs t

/-- Total number of guarded version-log executions across a list of
`Connect` outcomes. -/
def countOnceBody (os : List ConnectOutcome) : Nat :=
  (os.map (fun o => countOnceActs o.actions)).sum

/-- `TestSQLiteDB` from sqlite.go: the handle and the temporary directory
created for it. -/
structure TestSQLiteDB where
  db : DBHandle
  dir : String
deriving DecidableEq

/-- Outcomes of the side-effecting operations `(*TestSQLiteDB).Close` may
attempt: the error result of `r.DB.Close()` and of `os.RemoveAll(r.dir)`. -/
structure CloseEnv where
  closeRes : Option String
  removeRes : Option String
deriving DecidableEq

/-- `(*TestSQLiteDB).Close` from sqlite.go: a close failure is returned and
the directory removal is skipped; otherwise the removal runs and its result
is returned. The boolean records whether the removal was attempted. -/
def TestSQLiteDB.Close (_r : TestSQLiteDB) (env : CloseEnv) : Option String × Bool :=
  match env.closeRes with
  | some e => (some e, false)
  | none => (env.removeRes, true)

/-- A statement executor that appends each executed statement to the
schema, so the schema doubles as a log of executed SQL. -/
def execRecord : String → List String → Except String (List String) :=
  fun stmt sch => Except.ok (sch ++ [stmt])

/-- A statement executor that fails on every statement: if the engine ever
asks it to run SQL, migration errors out. -/
def execReject : String → List String → Except String (List String) :=
  fun _ _ => Except.error "statement executed"

/-- The database state after a full first migration run from an empty
database under `execRecord`: every step name recorded, every statement
executed once, in registration order. -/
def migratedState : MigState :=
  { ledger := sqliteMigratorSteps.map MigrationStep.name,
    schema := sqliteMigratorSteps.map MigrationStep.statement }

/-- `log.NewNopLogger()`. -/
def nopLogger : Logger :=
  { name := "nop" }

/-- An environment where every connection step succeeds. -/
def envAllOk : ConnectEnv :=
  { version := "3.30.1", openRes := Except.ok 1,
    pingRes := fun _ => none, migrateRes := fun _ => none }

/-- An environment where opening the database fails. -/
def envOpenFail : ConnectEnv :=
  { version := "3.30.1", openRes := Except.error "unable to open database file",
    pingRes := fun _ => none, migrateRes := fun _ => none }

/-- An environment where the handle opens but the ping fails. -/
def envPingFail : ConnectEnv :=
  { version := "3.30.1", openRes := Except.ok 1,
    pingRes := fun _ => some "database is locked", migrateRes := fun _ => none }

/-- An environment where open and ping succeed but migration fails. -/
def envMigrateFail : ConnectEnv :=
  { version := "3.30.1", openRes := Except.ok 1,
    pingRes := fun _ => none, migrateRes := fun _ => some "migration failed" }

/-- A provider stored with a construction-time error. -/
def failedProvider : sqlite :=
  { path := "customers.db", connections := sqliteConnections,
    logger := nopLogger, err := some "bad config" }

/-! ## Lemmas about the migration engine -/

/-- A run in which every step's name is already in the ledger returns the
state unchanged with no error, for any statement executor. -/
theorem migrate_skip_all
    (ex : String → List String → Except String (List String))
    (steps : List MigrationStep) (st : MigState)
    (h : ∀ s ∈ steps, s.name ∈ st.ledger) :
    migrate ex steps st = Except.ok st := by
  induction steps with
  | nil => rfl
  | cons a t ih =>
      have ha : st.ledger.contains a.name = true := by
        simpa using h a (by simp)
      simp only [migrate, migrateStep, ha, if_true]
      exact ih (fun s hs => h s (by simp [hs]))

/-- A successful migration run never loses ledger entries. -/
theorem migrate_ledger_mono
    (ex : String → List String → Except String (List String))
    (steps : List MigrationStep) (st st2 : MigState)
    (h : migrate ex steps st = Except.ok st2) :
    ∀ n, n ∈ st.ledger → n ∈ st2.ledger := by
  induction steps generalizing st with
  | nil =>
      intro n hn
      simp only [migrate] at h
      cases h
      exact hn
  | cons a t ih =>
      intro n hn
      by_cases hc : st.ledger.contains a.name = true
      · simp only [migrate, migrateStep, hc, if_true] at h
        exact ih st h n hn
      · simp only [migrate, migrateStep, hc, if_false] at h
        cases hex : ex a.statement st.schema with
        | error e => rw [hex] at h; cases h
        | ok schema2 =>
            rw [hex] at h
            refine ih _ h n ?_
            simp [hn]

/-- After a successful migration run, every registered step's name is in
the ledger. -/
theorem migrate_records_all
    (ex : String → List String → Except String (List String))
    (steps : List MigrationStep) (st st2 : MigState)
    (h : migrate ex steps st = Except.ok st2) :
    ∀ s ∈ steps, s.name ∈ st2.ledger := by
  induction steps generalizing st with
  | nil => intro s hs; cases hs
  | cons a t ih =>
      intro s hs
      by_cases hc : st.ledger.contains a.name = true
      · simp only [migrate, migrateStep, hc, if_true] at h
        rcases List.mem_cons.mp hs with hsa | hst
        · subst hsa
          exact migrate_ledger_mono ex t st st2 h s.name (by simpa using hc)
        · exact ih st h s hst
      · simp only [migrate, migrateStep, hc, if_false] at h
        cases hex : ex a.statement st.schema with
        | error e => rw [hex] at h; cases h
        | ok schema2 =>
            rw [hex] at h
            rcases List.mem_cons.mp hs with hsa | hst
            · subst hsa
              refine migrate_ledger_mono ex t _ st2 h s.name ?_
              simp
            · exact ih _ h s hst

/-! ## Claim theorems -/

/-- Claim C1: a second `Migrate` run against an already-migrated database
is a no-op. If a first run of the engine over `sqliteMigratorSteps`
succeeded with final state `st2`, then a second run from `st2` returns
`Except.ok st2` for ANY statement executor `ex2`: since the result holds
even for an executor that fails on every statement, no step's SQL executes
again; the state (in particular the ledger's row count) is unchanged; and
no error is returned. -/
theorem migrate_second_run_noop
    (ex ex2 : String → List String → Except String (List String))
    (st st2 : MigState)
    (h : migrate ex sqliteMigratorSteps st = Except.ok st2) :
    migrate ex2 sqliteMigratorSteps st2 = Except.ok st2 := by
  apply migrate_skip_all
  intro s hs
  exact migrate_records_all ex sqliteMigratorSteps st st2 h s hs

/-- Witness for C1: after a concrete first run from the empty database, a
second run under the always-failing executor still succeeds unchanged. -/
theorem migrate_second_run_noop_witness :
    migrate execReject sqliteMigratorSteps migratedState = Except.ok migratedState :=
  migrate_second_run_noop execRecord execReject
    { ledger := [], schema := [] } migratedState (by rfl)

/-- Claim C4: the path resolver is total (it is a Lean function), returns
the fixed default `customers.db` (never the raw input) on empty input or
input containing the traversal marker `..`, and returns every other input
unchanged. -/
theorem getSqlitePath_spec (raw : String) :
    ((raw = "" ∨ goContains raw ".." = true) →
      getSqlitePath raw = "customers.db" ∧ getSqlitePath raw ≠ raw)
    ∧ ((raw ≠ "" ∧ goContains raw ".." = false) → getSqlitePath raw = raw) := by
  constructor
  · rintro (h | h)
    · subst h
      exact ⟨rfl, by decide⟩
    · have hd : getSqlitePath raw = "customers.db" := by
        simp [getSqlitePath, h]
      refine ⟨hd, ?_⟩
      intro hc
      rw [hd] at hc
      rw [← hc] at h
      exact absurd h (by decide)
  · rintro ⟨h1, h2⟩
    simp [getSqlitePath, h1, h2]

/-- Witness for C4: a traversal input maps to the default and an ordinary
input is returned unchanged. -/
theorem getSqlitePath_spec_witness :
    (getSqlitePath "../../etc/passwd" = "customers.db"
      ∧ getSqlitePath "../../etc/passwd" ≠ "../../etc/passwd")
    ∧ getSqlitePath "data/customers.db" = "data/customers.db" :=
  ⟨(getSqlitePath_spec "../../etc/passwd").1 (Or.inr (by decide)),
   (getSqlitePath_spec "data/customers.db").2 ⟨by decide, by decide⟩⟩

/-- Claim C5: on a non-nil error, `SqliteUniqueViolation` returns true
exactly when the error message contains the phrase
`UNIQUE constraint failed`, or the error is a `sqlite3.Error` whose `Code`
is the constraint-violation code; otherwise it returns false. -/
theorem sqliteUniqueViolation_spec (err : GoError) :
    SqliteUniqueViolation err = true ↔
      (goContains err.message "UNIQUE constraint failed" = true
        ∨ ∃ code extendedCode msg,
            err = GoError.sqlite3Err code extendedCode msg ∧ code = errConstraint) := by
  cases err with
  | basic m =>
      simp [SqliteUniqueViolation, GoError.message]
  | sqlite3Err c x m =>
      constructor
      · intro h
        rcases Bool.or_eq_true_iff.mp h with hm | hc
        · exact Or.inl hm
        · exact Or.inr ⟨c, x, m, rfl, by simpa using hc⟩
      · rintro (hm | ⟨code, ext, msg, heq, hcode⟩)
        · simp [SqliteUniqueViolation, GoError.message] at hm ⊢
          exact Or.inl hm
        · cases heq
          simp [SqliteUniqueViolation, hcode]

/-- Witness for C5: a structured constraint error with a non-matching
message is classified as a unique violation, and a plain error with a
matching message is too. -/
theorem sqliteUniqueViolation_spec_witness :
    SqliteUniqueViolation (GoError.sqlite3Err 19 2067 "constraint failed") = true
    ∧ SqliteUniqueViolation
        (GoError.basic "UNIQUE constraint failed: customer_metadata.meta_key") = true :=
  ⟨(sqliteUniqueViolation_spec (GoError.sqlite3Err 19 2067 "constraint failed")).mpr
      (Or.inr ⟨19, 2067, "constraint failed", rfl, rfl⟩),
   (sqliteUniqueViolation_spec
      (GoError.basic "UNIQUE constraint failed: customer_metadata.meta_key")).mpr
      (Or.inl (by decide))⟩

/-- Counterexample for C6: the claim says the classifier never panics on
ANY error value. The source's first statement calls `err.Error()`, which on
the nil interface value dereferences nil and panics; in the model the call
on `none` (nil) yields `none` (panic) rather than a returned boolean, so
the universally quantified no-panic claim is false at the concrete input
nil. -/
theorem sqliteUniqueViolation_panics_on_nil :
    ¬ ∀ o : Option GoError, (sqliteUniqueViolationCall o).isSome = true := by
  intro h
  simpa [sqliteUniqueViolationCall] using h none

/-- Claim C6 (amended): on every NON-NIL error value the classifier never
panics (the call always returns a boolean), and on a non-nil value matching
neither the message shape nor the structured-error shape it returns
false. -/
theorem sqliteUniqueViolation_no_panic_nonnil (e : GoError) :
    (sqliteUniqueViolationCall (some e)).isSome = true
    ∧ ((goContains e.message "UNIQUE constraint failed" = false
        ∧ ∀ code extendedCode msg,
            e = GoError.sqlite3Err code extendedCode msg → code ≠ errConstraint) →
      sqliteUniqueViolationCall (some e) = some false) := by
  refine ⟨rfl, ?_⟩
  rintro ⟨hm, hs⟩
  cases e with
  | basic m =>
      simp [sqliteUniqueViolationCall, SqliteUniqueViolation, GoError.message] at hm ⊢
      exact hm
  | sqlite3Err c x m =>
      have hc : c ≠ errConstraint := hs c x m rfl
      simp [sqliteUniqueViolationCall, SqliteUniqueViolation, GoError.message] at hm ⊢
      exact ⟨hm, hc⟩

/-- Witness for C6 (amended): an arbitrary unrelated error is classified
without panic as not a unique violation. -/
theorem sqliteUniqueViolation_no_panic_nonnil_witness :
    sqliteUniqueViolationCall (some (GoError.basic "sql: database is closed"))
      = some false :=
  (sqliteUniqueViolation_no_panic_nonnil (GoError.basic "sql: database is closed")).2
    ⟨by decide, fun code ext msg h => nomatch h⟩

/-- Claim C2: for a provider with no stored error, `Connect` returns
no handle together with the open error when opening fails; returns the
opened handle together with the ping error when the probe fails; and
returns the opened handle together with the migration error when migration
fails. -/
theorem connect_error_paths (s : sqlite) (env : ConnectEnv) (b : Bool)
    (h : s.err = none) :
    (∀ e, env.openRes = Except.error e →
      (connect s env b).1.db = none ∧ (connect s env b).1.err = some e)
    ∧ (∀ db e, env.openRes = Except.ok db → env.pingRes db = some e →
      (connect s env b).1.db = some db ∧ (connect s env b).1.err = some e)
    ∧ (∀ db e, env.openRes = Except.ok db → env.pingRes db = none →
        env.migrateRes db = some e →
      (connect s env b).1.db = some db ∧ (connect s env b).1.err = some e) := by
  refine ⟨?_, ?_, ?_⟩
  · intro e he
    simp [connect, connectChecked, h, he]
  · intro db e ho hp
    simp [connect, connectChecked, h, ho, hp]
  · intro db e ho hp hm
    simp [connect, connectChecked, h, ho, hp, hm]

/-- Witness for C2: with a concrete provider, a failed open returns no
handle plus the open error. -/
theorem connect_error_paths_witness :
    (connect (sqliteConnection nopLogger "customers.db") envOpenFail false).1.db = none
    ∧ (connect (sqliteConnection nopLogger "customers.db") envOpenFail false).1.err
        = some "unable to open database file" :=
  (connect_error_paths (sqliteConnection nopLogger "customers.db") envOpenFail false
    rfl).1 "unable to open database file" rfl

/-- Claim C3: a provider whose stored error is non-nil makes every
`Connect` call return that error wrapped with the prefix
`sqlite had error `, with no handle and an empty action trace (no open, no
ping, no migration, no metrics task), and leaves the once-gate untouched;
since the outcome is the same for every environment and every gate state,
this holds on every subsequent call, without retry. -/
theorem connect_stored_error (s : sqlite) (env : ConnectEnv) (b : Bool)
    (e : String) (h : s.err = some e) :
    (connect s env b).1
      = { db := none, err := some ("sqlite had error " ++ e), actions := [] }
    ∧ (connect s env b).2 = b := by
  simp [connect, h]

/-- Witness for C3: the concrete failed provider returns its wrapped
stored error with an empty action trace, even in an environment where
every step would succeed. -/
theorem connect_stored_error_witness :
    (connect failedProvider envAllOk false).1
      = { db := none, err := some "sqlite had error bad config", actions := [] }
    ∧ (connect failedProvider envAllOk false).2 = false :=
  connect_stored_error failedProvider envAllOk false "bad config" rfl

/-! ## Lemmas about the once-gate and the metrics task -/

/-- The once-gate body never starts the metrics task. -/
theorem startMetrics_not_mem_onceActions (v : String) (b : Bool) :
    ConnectAction.startMetrics ∉ onceActions v b := by
  unfold onceActions
  split
  · simp
  · split <;> simp

/-- `countOnceActs` adds over appended traces. -/
theorem countOnceActs_append (l1 l2 : List ConnectAction) :
    countOnceActs (l1 ++ l2) = countOnceActs l1 + countOnceActs l2 := by
  induction l1 with
  | nil => simp [countOnceActs]
  | cons a t ih =>
      cases a <;> simp [countOnceActs, ih]
      omega

/-- The once-gate body appears in the gate's own trace exactly when the
gate had not yet fired. -/
theorem countOnceActs_onceActions (v : String) (b : Bool) :
    countOnceActs (onceActions v b) = if b then 0 else 1 := by
  cases b with
  | true => rfl
  | false =>
      by_cases hv : v = "" <;> simp [onceActions, hv, countOnceActs]

theorem countOnceActs_openTail (p : String) :
    countOnceActs [ConnectAction.openDB p] = 0 := rfl

theorem countOnceActs_pingTail (p : String) :
    countOnceActs [ConnectAction.openDB p, ConnectAction.ping] = 0 := rfl

theorem countOnceActs_migTail (p : String) :
    countOnceActs [ConnectAction.openDB p, ConnectAction.ping,
      ConnectAction.runMigrations] = 0 := rfl

theorem countOnceActs_fullTail (p : String) :
    countOnceActs [ConnectAction.openDB p, ConnectAction.ping,
      ConnectAction.runMigrations, ConnectAction.startMetrics] = 0 := rfl

/-- One `Connect` call runs the guarded body exactly once when the
provider has no stored error and the gate had not fired, and never
otherwise. -/
theorem connect_once_count (s : sqlite) (env : ConnectEnv) (b : Bool) :
    countOnceActs (connect s env b).1.actions
      = if s.err = none ∧ b = false then 1 else 0 := by
  cases herr : s.err with
  | some e => simp [connect, herr, countOnceActs]
  | none =>
      cases ho : env.openRes with
      | error e =>
          simp [connect, connectChecked, herr, ho, countOnceActs_append,
            countOnceActs_onceActions, countOnceActs_openTail]
          cases b <;> simp
      | ok db =>
          cases hp : env.pingRes db with
          | some e =>
              simp [connect, connectChecked, herr, ho, hp, countOnceActs_append,
                countOnceActs_onceActions, countOnceActs_pingTail]
              cases b <;> simp
          | none =>
              cases hm : env.migrateRes db with
              | some e =>
                  simp [connect, connectChecked, herr, ho, hp, hm,
                    countOnceActs_append, countOnceActs_onceActions,
                    countOnceActs_migTail]
                  cases b <;> simp
              | none =>
                  simp [connect, connectChecked, herr, ho, hp, hm,
                    countOnceActs_append, countOnceActs_onceActions,
                    countOnceActs_fullTail]
                  cases b <;> simp

/-- The once-gate is fired by any `Connect` call that passes the
stored-error check, and only by those. -/
theorem connect_snd_state (s : sqlite) (env : ConnectEnv) (b : Bool) :
    (connect s env b).2 = if s.err = none then true else b := by
  cases herr : s.err with
  | some e => simp [connect, herr]
  | none =>
      cases ho : env.openRes with
      | error e => simp [connect, connectChecked, herr, ho]
      | ok db =>
          cases hp : env.pingRes db with
          | some e => simp [connect, connectChecked, herr, ho, hp]
          | none =>
              cases hm : env.migrateRes db with
              | some e => simp [connect, connectChecked, herr, ho, hp, hm]
              | none => simp [connect, connectChecked, herr, ho, hp, hm]

theorem countOnceBody_cons (o : ConnectOutcome) (os : List ConnectOutcome) :
    countOnceBody (o :: os) = countOnceActs o.actions + countOnceBody os := by
  simp [countOnceBody]

/-- Once the gate has fired, no later call in the process runs the guarded
body. -/
theorem processCalls_count_fired (calls : List (sqlite × ConnectEnv)) :
    countOnceBody (processCalls calls true).1 = 0 := by
  induction calls with
  | nil => rfl
  | cons c rest ih =>
      obtain ⟨s, env⟩ := c
      simp only [processCalls, countOnceBody_cons]
      rw [connect_once_count, connect_snd_state]
      simp [ih]

/-- Across any sequence of `Connect` calls in one process starting with an
unfired gate, the guarded body runs at most once. -/
theorem processCalls_count_initial (calls : List (sqlite × ConnectEnv)) :
    countOnceBody (processCalls calls false).1 ≤ 1 := by
  induction calls with
  | nil => simp [processCalls, countOnceBody]
  | cons c rest ih =>
      obtain ⟨s, env⟩ := c
      simp only [processCalls, countOnceBody_cons]
      rw [connect_once_count, connect_snd_state]
      by_cases herr : s.err = none
      · simp [herr, processCalls_count_fired]
      · simpa [herr] using ih

/-- Claim C7: the metrics task is started exactly when the stored-error
check, open, ping and migration have all succeeded — never before; and each
tick of the task sets exactly the three gauges labeled state=idle,
state=inuse and state=open from the pool statistics snapshot, on a
once-per-minute (60 second) ticker. -/
theorem metrics_start_gated (s : sqlite) (env : ConnectEnv) (b : Bool) :
    (ConnectAction.startMetrics ∈ (connect s env b).1.actions ↔
      s.err = none ∧ ∃ db, env.openRes = Except.ok db
        ∧ env.pingRes db = none ∧ env.migrateRes db = none)
    ∧ (∀ stats : DBStats,
        metricsTick s stats
          = [ { gauge := s.connections, labelName := "state", labelValue := "idle",
                value := stats.idle },
              { gauge := s.connections, labelName := "state", labelValue := "inuse",
                value := stats.inUse },
              { gauge := s.connections, labelName := "state", labelValue := "open",
                value := stats.openConnections } ])
    ∧ metricsIntervalSeconds = 60 := by
  refine ⟨?_, fun stats => rfl, rfl⟩
  cases herr : s.err with
  | some e => simp [connect, herr]
  | none =>
      cases ho : env.openRes with
      | error e =>
          simp [connect, connectChecked, herr, ho,
            startMetrics_not_mem_onceActions]
      | ok db =>
          cases hp : env.pingRes db with
          | some e =>
              simp [connect, connectChecked, herr, ho, hp,
                startMetrics_not_mem_onceActions]
          | none =>
              cases hm : env.migrateRes db with
              | some e =>
                  simp [connect, connectChecked, herr, ho, hp, hm,
                    startMetrics_not_mem_onceActions]
              | none =>
                  simp [connect, connectChecked, herr, ho, hp, hm,
                    startMetrics_not_mem_onceActions]

/-- Witness for C7: in an all-success environment the metrics task is in
the action trace of the concrete provider. -/
theorem metrics_start_gated_witness :
    ConnectAction.startMetrics ∈
      (connect (sqliteConnection nopLogger "customers.db") envAllOk false).1.actions :=
  (metrics_start_gated (sqliteConnection nopLogger "customers.db") envAllOk false).1.mpr
    ⟨rfl, 1, rfl, rfl, rfl⟩

/-- Claim C8: across any sequence of `Connect` calls in one process the
guarded version-logging body executes at most once; and the returned
handle and error of any single call are independent of the engine version
string read (the empty string modelling a failed read), so a failed
version read never causes `Connect` to fail. -/
theorem version_log_once (calls : List (sqlite × ConnectEnv)) :
    countOnceBody (processCalls calls false).1 ≤ 1
    ∧ ∀ (s : sqlite) (env : ConnectEnv) (b : Bool) (v : String),
        (connect s { env with version := v } b).1.db = (connect s env b).1.db
        ∧ (connect s { env with version := v } b).1.err = (connect s env b).1.err := by
  refine ⟨processCalls_count_initial calls, ?_⟩
  intro s env b v
  cases herr : s.err with
  | some e => simp [connect, herr]
  | none =>
      cases ho : env.openRes with
      | error e => constructor <;> simp [connect, connectChecked, herr, ho]
      | ok db =>
          cases hp : env.pingRes db with
          | some e => constructor <;> simp [connect, connectChecked, herr, ho, hp]
          | none =>
              cases hm : env.migrateRes db with
              | some e =>
                  constructor <;> simp [connect, connectChecked, herr, ho, hp, hm]
              | none =>
                  constructor <;> simp [connect, connectChecked, herr, ho, hp, hm]

/-- Witness for C8: two successive successful calls in one process run the
guarded body at most once. -/
theorem version_log_once_witness :
    countOnceBody (processCalls
      [(sqliteConnection nopLogger "customers.db", envAllOk),
       (sqliteConnection nopLogger "customers.db", envAllOk)] false).1 ≤ 1 :=
  (version_log_once
    [(sqliteConnection nopLogger "customers.db", envAllOk),
     (sqliteConnection nopLogger "customers.db", envAllOk)]).1

/-- Claim C9: on the test harness, a close failure is returned and the
temporary directory is not removed; a successful close removes the
directory and returns the removal's result. -/
theorem testdb_close_spec (r : TestSQLiteDB) (env : CloseEnv) :
    (∀ e, env.closeRes = some e → r.Close env = (some e, false))
    ∧ (env.closeRes = none → r.Close env = (env.removeRes, true)) := by
  constructor
  · intro e h
    simp [TestSQLiteDB.Close, h]
  · intro h
    simp [TestSQLiteDB.Close, h]

/-- Witness for C9: a concrete failed close surfaces the close error and
skips removal; a concrete successful close removes the directory. -/
theorem testdb_close_spec_witness :
    TestSQLiteDB.Close { db := 1, dir := "customers-sqlite123" }
        { closeRes := some "sql: database is closed", removeRes := none }
      = (some "sql: database is closed", false)
    ∧ TestSQLiteDB.Close { db := 1, dir := "customers-sqlite123" }
        { closeRes := none, removeRes := none }
      = (none, true) :=
  ⟨(testdb_close_spec { db := 1, dir := "customers-sqlite123" }
      { closeRes := some "sql: database is closed", removeRes := none }).1
      "sql: database is closed" rfl,
   (testdb_close_spec { db := 1, dir := "customers-sqlite123" }
      { closeRes := none, removeRes := none }).2 rfl⟩

/-- Claim C10: every provider built by `sqliteConnection` has a nil stored
error, for any logger and path; consequently `Connect` on such a provider
always takes the main body, so the stored-error branch is unreachable. -/
theorem sqliteConnection_no_stored_error (logger : Logger) (path : String) :
    (sqliteConnection logger path).err = none
    ∧ ∀ (env : ConnectEnv) (b : Bool),
        connect (sqliteConnection logger path) env b
          = connectChecked (sqliteConnection logger path) env b :=
  ⟨rfl, fun _ _ => rfl⟩

/-- Witness for C10: the concrete provider used by the test harness has no
stored error and its `Connect` is the main body. -/
theorem sqliteConnection_no_stored_error_witness :
    (sqliteConnection nopLogger "customers.db").err = none
    ∧ connect (sqliteConnection nopLogger "customers.db") envAllOk false
        = connectChecked (sqliteConnection nopLogger "customers.db") envAllOk false :=
  ⟨(sqliteConnection_no_stored_error nopLogger "customers.db").1,
   (sqliteConnection_no_stored_error nopLogger "customers.db").2 envAllOk false⟩
